import Mathlib

/-!
Verification development for the Respawn chatbot backend.

The definitions below are a shallow embedding of the Python sources:
  * `src/backend/app/main.py` (namespace `App`), and
  * `src/backend/infrastructure/cdk/lambda/ai-agent/handler.py` (namespace `Handler`).
External effects (the Bedrock provider, `uuid.uuid4`, environment variables)
are modelled explicitly: the provider is an oracle giving the outcome of the
n-th retrieve-and-generate call plus the outcome of the single possible
invoke-model call, a freshly minted uuid is passed as an argument, and the
environment is a `Config` record.  Each orchestrator function additionally
returns the list of provider calls it performed, so that call-counting and
call-shape properties can be stated.
-/

namespace RespawnChatbot

/-- Python whitespace (`str.split` / `str.strip` character class). -/
def isPySpace (c : Char) : Bool :=
  c == ' ' || c == '\t' || c == '\n' || c == '\r' || c == '\x0b' || c == '\x0c'

/-- Python `str.strip()`. -/
def pyStrip (s : String) : String :=
  String.mk (((s.data.dropWhile fun c => isPySpace c).reverse.dropWhile fun c => isPySpace c).reverse)

/-- ASCII lower-casing of one character (model of `str.lower` for the ASCII
range; all phrases that the code compares against are ASCII-lowercase). -/
def pyLowerChar (c : Char) : Char :=
  if 'A' ≤ c ∧ c ≤ 'Z' then Char.ofNat (c.toNat + 32) else c

/-- Model of Python `str.lower()`. -/
def pyLower (s : String) : String :=
  String.mk (s.data.map pyLowerChar)

/-- `hasSub needle hay` is Python's `needle in hay` (substring containment). -/
def hasSub (needle : List Char) : List Char → Bool
  | [] => needle.isEmpty
  | c :: cs => needle.isPrefixOf (c :: cs) || hasSub needle cs

/-- Python `needle in hay` on strings. -/
def containsSub (hay needle : String) : Bool :=
  hasSub needle.data hay.data

/-- Python `a or b` for two strings (empty string is falsy). -/
def pyOrS (a b : String) : String :=
  if a = "" then b else a

/-- Python `a or b` where `a` is an optional string (`None` and `""` are falsy). -/
def pyOrOS (a : Option String) (b : String) : String :=
  match a with
  | none => b
  | some s => if s = "" then b else s

/-- Python's word splitter `str.split()` (no argument): accumulator-based
split on whitespace runs, dropping empty pieces. -/
def splitWsAux : List Char → List Char → List (List Char)
  | [], acc => if acc = [] then [] else [acc.reverse]
  | c :: cs, acc =>
    if isPySpace c then
      if acc = [] then splitWsAux cs []
      else acc.reverse :: splitWsAux cs []
    else splitWsAux cs (c :: acc)

/-- `str.split()` at the character-list level. -/
def splitWs (cs : List Char) : List (List Char) := splitWsAux cs []

/-- Python `s.split()` on strings. -/
def pySplit (s : String) : List String := (splitWs s.data).map String.mk

/-- Environment configuration read through `os.getenv` (empty string = unset). -/
structure Config where
  kbId : String
  modelId : String
  modelArnOverride : String
  region : String
deriving DecidableEq

/-- The request body parsed by the transport layer (`ChatRequest` in main.py). -/
structure ChatRequest where
  message : String
  conversationId : Option String
  language : Option String
deriving DecidableEq

/-- The normalized result `{"conversationId": ..., "reply": ...}`. -/
structure ChatResult where
  conversationId : Option String
  reply : String
deriving DecidableEq

/-- Errors visible to the transport layer: the 400 for an empty message, or a
propagated provider exception (FastAPI turns the latter into a 500). -/
inductive ChatError
  | badRequest
  | providerError
deriving DecidableEq

/-- Outcome of one `retrieve_and_generate` provider call: a successful
response (with optional output text and optional session id), a botocore
`ClientError` carrying `str(exc)`, or any other exception. -/
inductive RagResult
  | ok (outputText : Option String) (sessionId : Option String)
  | clientError (msg : String)
  | exn

/-- Outcome of the single possible `invoke_model` call: a response whose first
content block carries the given text (`none` models a missing or empty content
list), or an exception. -/
inductive SimpleResult
  | ok (contentText : Option String)
  | exn

/-- A record of one provider call, for call-counting and call-shape claims. -/
inductive ProviderCall
  | rag (sessionId : Option String) (prompt : String)
  | invoke (prompt : String)
deriving DecidableEq

instance {ε α : Type} [DecidableEq ε] [DecidableEq α] : DecidableEq (Except ε α) := fun a b =>
  match a, b with
  | Except.ok x, Except.ok y =>
    if h : x = y then isTrue (congrArg Except.ok h)
    else isFalse fun he => h (Except.ok.inj he)
  | Except.error x, Except.error y =>
    if h : x = y then isTrue (congrArg Except.error h)
    else isFalse fun he => h (Except.error.inj he)
  | Except.ok _, Except.error _ => isFalse fun he => Except.noConfusion he
  | Except.error _, Except.ok _ => isFalse fun he => Except.noConfusion he

/-- `language = "es" if req.language == "es" else "en"` (main.py line 330). -/
def normLanguage (language : Option String) : String :=
  if language = some "es" then "es" else "en"

namespace App

/-- The fixed greeting-phrase set of `is_greeting` in main.py. -/
def greetings : List String :=
  ["hi", "hello", "hey", "good morning", "good afternoon", "good evening",
   "hola", "buenas", "buenos dias", "buenas tardes", "buenas noches"]

/-- `is_greeting` from main.py: strip, lower-case, exact membership test. -/
def is_greeting (message : String) : Bool :=
  let cleaned := pyLower (pyStrip message)
  if cleaned = "" then false else greetings.contains cleaned

/-- The `refusal_guard` string of `build_prompt` in main.py. -/
def refusalGuard (language : String) : String :=
  if language = "es" then
    "Si la pregunta es un saludo o es general, responde con un saludo breve, " ++
    "una frase corta ofreciendo ayuda y una sola pregunta de orientación. " ++
    "No incluyas información técnica ni detalles de la base de conocimiento."
  else
    "If the question is a greeting or general, respond with a brief greeting, " ++
    "one short offer of help, and one guiding question. Do not include technical details " ++
    "or knowledge-base content."

/-- The `force_line` string of `build_prompt` in main.py. -/
def forceLine (language : String) : String :=
  if language = "es" then
    "Debes responder de forma útil incluso si la pregunta es vaga. " ++
    "No uses frases de rechazo."
  else
    "You must provide a helpful response even if the question is vague. Avoid refusal language."

/-- The `greeting_only` string of `build_prompt` in main.py. -/
def greetingOnly (language : String) : String :=
  if language = "es" then
    "Este es un saludo. Ignora el contenido de la base de conocimiento y responde " ++
    "solo con un saludo breve, una frase de ayuda y una pregunta concreta para orientar."
  else
    "This is a greeting. Ignore knowledge-base content and respond only with a brief " ++
    "greeting, one helpful line, and one concrete guiding question."

/-- `build_prompt` from main.py: the knowledge-base prompt template,
parameterized by message, language, escalation flag and mode. -/
def build_prompt (message : String) (language : String) (force_help : Bool)
    (mode : String) : String :=
  let extra_policy := "\n" ++ refusalGuard language ++ "\n" ++
    (if force_help then forceLine language ++ "\n" else "")
  let greetingPart := if mode = "greeting" then greetingOnly language else ""
  if language = "es" then
    "IMPORTANTE: Debes responder ÚNICAMENTE en español. Si el contenido de referencia está en inglés, tradúcelo antes de responder. No incluyas texto en inglés.\n" ++
    "\n" ++
    "Usa la base de conocimiento como fuente principal. Si la base no contiene suficiente información, ofrece orientación general breve y pide un detalle adicional. Nunca te niegues ni digas que no puedes ayudar.\n" ++
    "La respuesta debe ser clara, bien redactada y breve (máximo 4–6 líneas).\n" ++
    "No incluyas \"Action:\", \"Response:\", ni texto de sistema. No uses Markdown (sin **, #, ni código). Texto plano.\n" ++
    "Si el usuario solo saluda o hace una pregunta muy general, responde solo con un saludo breve, una frase de ayuda y una pregunta concreta para guiar el tema. No incluyas contenido de la base de conocimiento en saludos.\n" ++
    "Evita frases como \"no puedo ayudar\", \"no tengo información\" o \"no estoy autorizado\".\n" ++
    extra_policy ++ "\n" ++
    greetingPart ++ "\n" ++
    "\n" ++
    "Formato requerido (usa exactamente estos encabezados):\n" ++
    "Resumen:\n" ++
    "- 1–2 puntos breves.\n" ++
    "Recomendaciones:\n" ++
    "- 2–3 viñetas concretas y accionables.\n" ++
    "Siguientes preguntas:\n" ++
    "- 2 viñetas relacionadas con la pregunta del usuario.\n" ++
    "\n" ++
    "Pregunta del usuario: " ++ message ++ "\n" ++
    "\n" ++
    "Responde completamente en español."
  else
    "IMPORTANT: You must respond ONLY in English. If any reference content is in another language, translate it before responding.\n" ++
    "\n" ++
    "Use the knowledge base as your primary source. If the KB lacks enough info, provide brief general guidance and ask one clarifying question. Never refuse or say you cannot help.\n" ++
    "The response must be well-written and concise (max 4–6 lines).\n" ++
    "Do not include \"Action:\", \"Response:\", or any system text. Do not use Markdown (no **, #, or code). Plain text only.\n" ++
    "If the user only greets or asks a very general question, respond only with a brief friendly greeting, one helpful sentence, and a concrete guiding question. Do not include knowledge-base content in greetings.\n" ++
    "Avoid phrases like \"unable to assist\", \"cannot help\", or \"no information available\".\n" ++
    extra_policy ++ "\n" ++
    greetingPart ++ "\n" ++
    "\n" ++
    "Required format (use these exact headings):\n" ++
    "Summary:\n" ++
    "- 1–2 brief points.\n" ++
    "Recommendations:\n" ++
    "- 2–3 concrete, actionable bullets.\n" ++
    "Next questions:\n" ++
    "- 2 bullets related to the user’s question.\n" ++
    "\n" ++
    "User question: " ++ message ++ "\n" ++
    "\n" ++
    "Respond completely in English."

/-- `build_greeting_prompt` from main.py. -/
def build_greeting_prompt (message : String) (language : String) : String :=
  if language = "es" then
    "Responde SOLO con un saludo breve, una frase corta explicando que eres la Guía de Juegos Adaptativos y una pregunta concreta para orientar.\n" ++
    "Usa exactamente este formato y texto plano, sin Markdown.\n" ++
    "\n" ++
    "Resumen:\n" ++
    "Hola, soy tu Guía de Juegos Adaptativos.\n" ++
    "Recomendaciones:\n" ++
    "Puedo ayudarte con recomendaciones y configuración de juegos adaptativos.\n" ++
    "Siguientes preguntas:\n" ++
    "¿Qué tipo de jugador o paciente quieres apoyar?\n" ++
    "¿Qué consola o juego estás usando?\n" ++
    "\n" ++
    "Mensaje del usuario: " ++ message ++ "\n"
  else
    "Respond ONLY with a brief greeting, one short line explaining this is the Adaptive Gaming Guide, and one concrete guiding question.\n" ++
    "Use this exact format and plain text only, no Markdown.\n" ++
    "\n" ++
    "Summary:\n" ++
    "Hello, I’m your Adaptive Gaming Guide.\n" ++
    "Recommendations:\n" ++
    "I can help with adaptive gaming recommendations and setup guidance.\n" ++
    "Next questions:\n" ++
    "What type of player or patient are you supporting?\n" ++
    "Which console or game are you working with?\n" ++
    "\n" ++
    "User message: " ++ message ++ "\n"

/-- `build_general_fallback_prompt` from main.py. -/
def build_general_fallback_prompt (message : String) (language : String) : String :=
  if language = "es" then
    "Responde de forma útil y breve incluso si la base de conocimiento es insuficiente.\n" ++
    "Usa el formato requerido y texto plano, sin Markdown.\n" ++
    "\n" ++
    "Resumen:\n" ++
    "- 1–2 puntos claros y breves.\n" ++
    "Recomendaciones:\n" ++
    "- 2–3 viñetas concretas.\n" ++
    "Siguientes preguntas:\n" ++
    "- 2 viñetas relacionadas con la pregunta del usuario.\n" ++
    "\n" ++
    "Pregunta del usuario: " ++ message ++ "\n"
  else
    "Provide a helpful, concise response even if the knowledge base lacks details.\n" ++
    "Use the required format and plain text only, no Markdown.\n" ++
    "\n" ++
    "Summary:\n" ++
    "- 1–2 clear, brief points.\n" ++
    "Recommendations:\n" ++
    "- 2–3 concrete bullets.\n" ++
    "Next questions:\n" ++
    "- 2 bullets related to the user’s question.\n" ++
    "\n" ++
    "User question: " ++ message ++ "\n"

/-- The refusal phrase list of `looks_like_refusal` in main.py. -/
def refusalPatterns : List String :=
  ["unable to assist", "cannot assist", "can\x27t assist", "cannot help",
   "can\x27t help", "sorry, i am unable", "no puedo ayudar", "no puedo asist",
   "no tengo información"]

/-- `looks_like_refusal` from main.py: lower-case, then any-substring match. -/
def looks_like_refusal (text : String) : Bool :=
  let lowered := pyLower text
  refusalPatterns.any fun pattern => containsSub lowered pattern

/-- The canned reply used throughout `call_model_simple` in main.py. -/
def cannedSimple (language : String) : String :=
  if language = "es" then "Hola, ¿en qué puedo ayudarte?" else "Hi! How can I help?"

/-- The echo fallback reply of `call_bedrock` in main.py. -/
def echoReply (language message : String) : String :=
  if language = "es" then "Dijiste: " ++ message else "You said: " ++ message

/-- The substitute reply when the provider output text is empty or missing
(main.py line 286). -/
def noAnswer (language : String) : String :=
  if language = "es" then "No tengo respuesta." else "No answer."

/-- The invalid/expired-session error signature check of `call_bedrock`
(main.py line 276): both fragments must occur in `str(exc)`. -/
def invalidSessionSig (msg : String) : Bool :=
  containsSub msg "Session with Id" && containsSub msg "is not valid"

/-- The `sessionId` field actually sent on the wire: included only when
`conversation_id` is truthy (main.py line 269). -/
def sessParam (conversation_id : Option String) : Option String :=
  match conversation_id with
  | none => none
  | some s => if s = "" then none else some s

/-- `call_model_simple` from main.py: the direct `invoke_model` path used for
greetings and the general fallback.  Always returns `conversationId = None`;
recovers from every provider failure with the canned reply. -/
def call_model_simple (cfg : Config) (so : SimpleResult) (message : String)
    (language : String) (mode : String) : ChatResult × List ProviderCall :=
  let model_id := pyOrS cfg.modelArnOverride cfg.modelId
  if model_id = "" then
    ({ conversationId := none, reply := cannedSimple language }, [])
  else
    let prompt :=
      if mode = "greeting" then build_greeting_prompt message language
      else build_general_fallback_prompt message language
    match so with
    | SimpleResult.ok contentText =>
        let text := match contentText with | some t => t | none => ""
        ({ conversationId := none,
           reply := pyOrS (pyStrip text) (cannedSimple language) },
         [ProviderCall.invoke prompt])
    | SimpleResult.exn =>
        ({ conversationId := none, reply := cannedSimple language },
         [ProviderCall.invoke prompt])

/-- `call_bedrock` from main.py: the retrieve-and-generate path.  `ro k` is
the outcome of the first provider call, `ro (k+1)` of the invalid-session
retry.  A `ClientError` matching the invalid-session signature triggers one
retry with the session omitted; any other `ClientError`, or a failure of the
retry itself, propagates (`Except.error`); any non-`ClientError` exception is
recovered with the echo reply. -/
def call_bedrock (cfg : Config) (ro : Nat → RagResult) (k : Nat)
    (freshId : String) (message : String) (conversation_id : Option String)
    (language : String) (force_help : Bool) (mode : String) :
    Except Unit ChatResult × List ProviderCall :=
  if cfg.kbId = "" ∨ cfg.modelId = "" then
    (Except.ok { conversationId := some (pyOrOS conversation_id freshId),
                 reply := echoReply language message }, [])
  else
    let prompt := build_prompt message language force_help mode
    let sess := sessParam conversation_id
    match ro k with
    | RagResult.ok outputText sid =>
        (Except.ok { conversationId := some (pyOrOS sid (pyOrOS conversation_id freshId)),
                     reply := pyOrOS outputText (noAnswer language) },
         [ProviderCall.rag sess prompt])
    | RagResult.clientError msg =>
        if invalidSessionSig msg then
          match ro (k + 1) with
          | RagResult.ok outputText sid =>
              (Except.ok { conversationId := some (pyOrOS sid (pyOrOS conversation_id freshId)),
                           reply := pyOrOS outputText (noAnswer language) },
               [ProviderCall.rag sess prompt, ProviderCall.rag none prompt])
          | _ =>
              (Except.error (), [ProviderCall.rag sess prompt, ProviderCall.rag none prompt])
        else
          (Except.error (), [ProviderCall.rag sess prompt])
    | RagResult.exn =>
        (Except.ok { conversationId := some (pyOrOS conversation_id freshId),
                     reply := echoReply language message },
         [ProviderCall.rag sess prompt])

/-- The `/api/chat` handler `chat` from main.py: validation, language
normalization, classification, and the refusal-escalation ladder. -/
def chat (cfg : Config) (ro : Nat → RagResult) (so : SimpleResult)
    (freshId : String) (req : ChatRequest) :
    Except ChatError ChatResult × List ProviderCall :=
  let message := pyStrip req.message
  if message = "" then (Except.error ChatError.badRequest, [])
  else
    let language := normLanguage req.language
    if is_greeting message then
      let r := call_model_simple cfg so message language "greeting"
      (Except.ok r.1, r.2)
    else
      let r1 := call_bedrock cfg ro 0 freshId message req.conversationId language false "default"
      match r1.1 with
      | Except.error _ => (Except.error ChatError.providerError, r1.2)
      | Except.ok res1 =>
        if looks_like_refusal res1.reply then
          let r2 := call_bedrock cfg ro 2 freshId message none language true "default"
          match r2.1 with
          | Except.error _ => (Except.error ChatError.providerError, r1.2 ++ r2.2)
          | Except.ok res2 =>
            if looks_like_refusal res2.reply then
              let r3 := call_model_simple cfg so message language "general"
              (Except.ok r3.1, r1.2 ++ r2.2 ++ r3.2)
            else (Except.ok res2, r1.2 ++ r2.2)
        else (Except.ok res1, r1.2)

end App

/-- One server-sent event of the streaming response body. -/
inductive SseEvent
  | meta (conversationId : Option String)
  | delta (text : String)
  | done
deriving DecidableEq

namespace App

/-- `stream_reply` from main.py: one meta event, one delta event per
whitespace-delimited word of the reply (payload is the word plus a trailing
space), then a done event. -/
def stream_reply (reply : String) (conversation_id : Option String) : List SseEvent :=
  [SseEvent.meta conversation_id] ++
    (pySplit reply).map (fun chunk => SseEvent.delta (chunk ++ " ")) ++
    [SseEvent.done]

end App

namespace Handler

/-- The greeting word list of `is_greeting` in handler.py. -/
def greetings : List String :=
  ["hi", "hello", "hey", "hola", "buenos dias", "buenas tardes",
   "good morning", "good afternoon", "good evening", "greetings",
   "howdy", "what\x27s up", "whats up", "sup"]

/-- `is_greeting` from handler.py: lower-case, strip, and — for messages of
fewer than 20 characters — a substring match against the word list. -/
def is_greeting (message : String) : Bool :=
  let msg_lower := pyStrip (pyLower message)
  if msg_lower.length < 20 then
    greetings.any fun greeting => containsSub msg_lower greeting
  else false

end Handler

end RespawnChatbot

namespace RespawnChatbot

example : App.is_greeting "  Hello  " = true := by decide

example : App.is_greeting "hello there" = false := by decide

example : App.looks_like_refusal "I CANNOT HELP with that" = true := by decide

example : App.looks_like_refusal "Sure, here is a guide." = false := by decide

example : pySplit "a  b" = ["a", "b"] := by decide

example : pyStrip "  hi \n" = "hi" := by decide

lemma append_ne_empty (a b : String) (ha : a.data ≠ []) : a ++ b ≠ "" := by
  intro hab
  apply ha
  have hd : (a ++ b).data = a.data ++ b.data := by
    cases a
    cases b
    rfl
  rw [hab] at hd
  exact (List.append_eq_nil.mp hd.symm).1

lemma pyOrS_ne_empty (a b : String) (hb : b ≠ "") : pyOrS a b ≠ "" := by
  unfold pyOrS
  split
  · exact hb
  · assumption

lemma pyOrOS_ne_empty (a : Option String) (b : String) (hb : b ≠ "") :
    pyOrOS a b ≠ "" := by
  unfold pyOrOS
  cases a with
  | none => exact hb
  | some s =>
    simp only
    split
    · exact hb
    · assumption

lemma echoReply_ne_empty (language message : String) :
    App.echoReply language message ≠ "" := by
  unfold App.echoReply
  split
  · exact append_ne_empty _ _ (by decide)
  · exact append_ne_empty _ _ (by decide)

lemma noAnswer_ne_empty (language : String) : App.noAnswer language ≠ "" := by
  unfold App.noAnswer
  split
  · decide
  · decide

lemma cannedSimple_ne_empty (language : String) : App.cannedSimple language ≠ "" := by
  unfold App.cannedSimple
  split
  · decide
  · decide

lemma call_model_simple_cid_none (cfg : Config) (so : SimpleResult)
    (message language mode : String) :
    (App.call_model_simple cfg so message language mode).1.conversationId = none := by
  unfold App.call_model_simple
  by_cases hm : pyOrS cfg.modelArnOverride cfg.modelId = ""
  · simp [hm]
  · cases so <;> simp [hm]

lemma call_model_simple_reply_ne (cfg : Config) (so : SimpleResult)
    (message language mode : String) :
    (App.call_model_simple cfg so message language mode).1.reply ≠ "" := by
  unfold App.call_model_simple
  by_cases hm : pyOrS cfg.modelArnOverride cfg.modelId = ""
  · simpa [hm] using cannedSimple_ne_empty language
  · cases so with
    | ok contentText =>
      simpa [hm] using pyOrS_ne_empty _ _ (cannedSimple_ne_empty language)
    | exn => simpa [hm] using cannedSimple_ne_empty language

lemma call_bedrock_ok_cid_some (cfg : Config) (ro : Nat → RagResult) (k : Nat)
    (fid message : String) (cid : Option String) (language : String)
    (fh : Bool) (mode : String) (r : ChatResult)
    (h : (App.call_bedrock cfg ro k fid message cid language fh mode).1 = Except.ok r) :
    ∃ s, r.conversationId = some s := by
  unfold App.call_bedrock at h
  split at h
  · obtain h2 := Except.ok.inj h
    subst h2
    exact ⟨_, rfl⟩
  · split at h
    · obtain h2 := Except.ok.inj h
      subst h2
      exact ⟨_, rfl⟩
    · split at h
      · split at h
        · obtain h2 := Except.ok.inj h
          subst h2
          exact ⟨_, rfl⟩
        · exact absurd h (by simp)
      · exact absurd h (by simp)
    · obtain h2 := Except.ok.inj h
      subst h2
      exact ⟨_, rfl⟩

lemma call_bedrock_ok_reply_ne (cfg : Config) (ro : Nat → RagResult) (k : Nat)
    (fid message : String) (cid : Option String) (language : String)
    (fh : Bool) (mode : String) (r : ChatResult)
    (h : (App.call_bedrock cfg ro k fid message cid language fh mode).1 = Except.ok r) :
    r.reply ≠ "" := by
  unfold App.call_bedrock at h
  split at h
  · obtain h2 := Except.ok.inj h
    subst h2
    exact echoReply_ne_empty language message
  · split at h
    · obtain h2 := Except.ok.inj h
      subst h2
      exact pyOrOS_ne_empty _ _ (noAnswer_ne_empty language)
    · split at h
      · split at h
        · obtain h2 := Except.ok.inj h
          subst h2
          exact pyOrOS_ne_empty _ _ (noAnswer_ne_empty language)
        · exact absurd h (by simp)
      · exact absurd h (by simp)
    · obtain h2 := Except.ok.inj h
      subst h2
      exact echoReply_ne_empty language message

/-- A configuration with no knowledge base and no model configured. -/
def cfgNone : Config := ⟨"", "", "", "us-east-1"⟩

/-- A provider on which every retrieve-and-generate call raises. -/
def roExn : Nat → RagResult := fun _ => RagResult.exn

/-- Claim C7 (confirmed): every result returned by `chat` carries a non-empty
reply string; whenever the provider yields empty or missing output text, a
language-appropriate generic reply is substituted. -/
theorem claim_C7 (cfg : Config) (ro : Nat → RagResult) (so : SimpleResult)
    (fid : String) (req : ChatRequest) (r : ChatResult)
    (h : (App.chat cfg ro so fid req).1 = Except.ok r) : r.reply ≠ "" := by
  unfold App.chat at h
  dsimp only at h
  split at h
  · exact absurd h (by simp)
  · split at h
    · obtain h2 := Except.ok.inj h
      subst h2
      exact call_model_simple_reply_ne _ _ _ _ _
    · split at h
      · exact absurd h (by simp)
      · rename_i res1 heq1
        split at h
        · split at h
          · exact absurd h (by simp)
          · rename_i res2 heq2
            split at h
            · obtain h2 := Except.ok.inj h
              subst h2
              exact call_model_simple_reply_ne _ _ _ _ _
            · obtain h2 := Except.ok.inj h
              subst h2
              exact call_bedrock_ok_reply_ne _ _ _ _ _ _ _ _ _ _ heq2
        · obtain h2 := Except.ok.inj h
          subst h2
          exact call_bedrock_ok_reply_ne _ _ _ _ _ _ _ _ _ _ heq1

/-- Witness for C7 at a concrete input. -/
theorem claim_C7_witness : (ChatResult.mk none "Hi! How can I help?").reply ≠ "" :=
  claim_C7 cfgNone roExn SimpleResult.exn "fresh7" ⟨"hi", none, some "en"⟩
    ⟨none, "Hi! How can I help?"⟩ (by decide)

/-- Claim C1 counterexample: the greeting path terminates with a null
`conversationId` (and so does the general-fallback path), contradicting the
claim that every terminating call returns a non-null token. -/
theorem claim_C1_counterexample :
    (App.chat cfgNone roExn SimpleResult.exn "fresh1" ⟨"hi", none, some "en"⟩).1
      = Except.ok { conversationId := none, reply := "Hi! How can I help?" } := by
  decide

/-- Claim C1 (amended): a terminating `chat` call returns a null
`conversationId` only when the final reply was produced by the direct-model
path (`call_model_simple`, i.e. the greeting and general-fallback paths, which
always return a null id); every path through `call_bedrock` returns a non-null
token. -/
theorem claim_C1_amended (cfg : Config) (ro : Nat → RagResult) (so : SimpleResult)
    (fid : String) (req : ChatRequest) (r : ChatResult)
    (h : (App.chat cfg ro so fid req).1 = Except.ok r) :
    (r.conversationId = none →
      r = (App.call_model_simple cfg so (pyStrip req.message)
            (normLanguage req.language) "greeting").1
      ∨ r = (App.call_model_simple cfg so (pyStrip req.message)
            (normLanguage req.language) "general").1)
    ∧ ∀ mo : String,
        (App.call_model_simple cfg so (pyStrip req.message)
          (normLanguage req.language) mo).1.conversationId = none := by
  refine ⟨?_, fun mo => call_model_simple_cid_none _ _ _ _ _⟩
  intro hnone
  unfold App.chat at h
  dsimp only at h
  split at h
  · exact absurd h (by simp)
  · split at h
    · obtain h2 := Except.ok.inj h
      subst h2
      exact Or.inl rfl
    · split at h
      · exact absurd h (by simp)
      · rename_i res1 heq1
        split at h
        · split at h
          · exact absurd h (by simp)
          · rename_i res2 heq2
            split at h
            · obtain h2 := Except.ok.inj h
              subst h2
              exact Or.inr rfl
            · obtain h2 := Except.ok.inj h
              subst h2
              obtain ⟨s, hs⟩ := call_bedrock_ok_cid_some _ _ _ _ _ _ _ _ _ _ heq2
              rw [hs] at hnone
              exact absurd hnone (by simp)
        · obtain h2 := Except.ok.inj h
          subst h2
          obtain ⟨s, hs⟩ := call_bedrock_ok_cid_some _ _ _ _ _ _ _ _ _ _ heq1
          rw [hs] at hnone
          exact absurd hnone (by simp)

/-- Witness for the amended C1 at a concrete input. -/
theorem claim_C1_witness :
    ((ChatResult.mk none "Hi! How can I help?").conversationId = none →
      ChatResult.mk none "Hi! How can I help?"
        = (App.call_model_simple cfgNone SimpleResult.exn (pyStrip "hi")
            (normLanguage (some "en")) "greeting").1
      ∨ ChatResult.mk none "Hi! How can I help?"
        = (App.call_model_simple cfgNone SimpleResult.exn (pyStrip "hi")
            (normLanguage (some "en")) "general").1)
    ∧ ∀ mo : String,
        (App.call_model_simple cfgNone SimpleResult.exn (pyStrip "hi")
          (normLanguage (some "en")) mo).1.conversationId = none :=
  claim_C1_amended cfgNone roExn SimpleResult.exn "fresh1" ⟨"hi", none, some "en"⟩
    ⟨none, "Hi! How can I help?"⟩ (by decide)

example : Handler.is_greeting "hi there friend" = true := by decide

lemma normLanguage_idem (l : Option String) :
    normLanguage (some (normLanguage l)) = normLanguage l := by
  by_cases h : l = some "es" <;> simp [normLanguage, h]

/-- Claim C10 (confirmed): any language value other than exactly `"es"`
normalizes to `"en"`, the whole `chat` behaviour depends on the language only
through that normalization, and no request is ever rejected for an
unsupported language (the only validation error is the empty message). -/
theorem claim_C10 (cfg : Config) (ro : Nat → RagResult) (so : SimpleResult)
    (fid : String) (req : ChatRequest) :
    (req.language ≠ some "es" → normLanguage req.language = "en")
    ∧ App.chat cfg ro so fid req
        = App.chat cfg ro so fid ⟨req.message, req.conversationId, some (normLanguage req.language)⟩
    ∧ ((App.chat cfg ro so fid req).1 = Except.error ChatError.badRequest →
        pyStrip req.message = "") := by
  refine ⟨fun hne => by simp [normLanguage, hne], ?_, ?_⟩
  · unfold App.chat
    dsimp only
    rw [normLanguage_idem]
  · intro hbad
    by_cases hm : pyStrip req.message = ""
    · exact hm
    · exfalso
      unfold App.chat at hbad
      dsimp only at hbad
      rw [if_neg hm] at hbad
      split at hbad
      · exact absurd hbad (by simp)
      · split at hbad
        · exact absurd hbad (by simp)
        · split at hbad
          · split at hbad
            · exact absurd hbad (by simp)
            · split at hbad
              · exact absurd hbad (by simp)
              · exact absurd hbad (by simp)
          · exact absurd hbad (by simp)

/-- Witness for C10 at a concrete input (language `"fr"` is normalized). -/
theorem claim_C10_witness :
    normLanguage (some "fr") = "en"
    ∧ App.chat cfgNone roExn SimpleResult.exn "f10" ⟨"hola amigo", none, some "fr"⟩
        = App.chat cfgNone roExn SimpleResult.exn "f10"
            ⟨"hola amigo", none, some (normLanguage (some "fr"))⟩ :=
  ⟨(claim_C10 cfgNone roExn SimpleResult.exn "f10" ⟨"hola amigo", none, some "fr"⟩).1
      (by decide),
   (claim_C10 cfgNone roExn SimpleResult.exn "f10" ⟨"hola amigo", none, some "fr"⟩).2.1⟩

/-- Claim C6 counterexample: the Lambda variant of the classifier
(`handler.py`) uses substring matching under a 20-character ceiling, so the
message `"hi there friend"` — strictly longer than every listed phrase and
equal to none of them — is still classified as a greeting. -/
theorem claim_C6_counterexample :
    Handler.is_greeting "hi there friend" = true
    ∧ ∀ g ∈ Handler.greetings,
        g ≠ "hi there friend" ∧ g.length < ("hi there friend" : String).length := by
  decide

/-- Claim C6 (amended): the app backend's classifier (`main.py`) is an exact
membership test on the trimmed, lower-cased message — in particular every
message whose normalization is longer than the longest listed phrase (14
characters) is classified substantive; the Lambda variant (`handler.py`)
instead uses a substring match for messages under 20 characters. -/
theorem claim_C6_amended (m : String) :
    (App.is_greeting m = true ↔ App.greetings.contains (pyLower (pyStrip m)) = true)
    ∧ (∀ g ∈ App.greetings, g.length ≤ 14)
    ∧ (14 < (pyLower (pyStrip m)).length → App.is_greeting m = false) := by
  refine ⟨?_, by decide, ?_⟩
  · unfold App.is_greeting
    dsimp only
    split
    · rename_i hc
      rw [hc]
      decide
    · exact Iff.rfl
  · intro hlen
    unfold App.is_greeting
    dsimp only
    split
    · rfl
    · rename_i hc
      cases hgc : App.greetings.contains (pyLower (pyStrip m))
      · rfl
      · exfalso
        have hmem : pyLower (pyStrip m) ∈ App.greetings := by
          simpa using hgc
        simp only [App.greetings, List.mem_cons, List.not_mem_nil, or_false] at hmem
        rcases hmem with h | h | h | h | h | h | h | h | h | h | h <;>
          (rw [h] at hlen; exact absurd hlen (by decide))

/-- Witness for the amended C6 at a concrete input. -/
theorem claim_C6_witness :
    App.is_greeting "what controllers work for one handed play" = false :=
  (claim_C6_amended "what controllers work for one handed play").2.2 (by decide)

/-- A fully configured environment. -/
def cfgKB : Config := ⟨"kb1", "model1", "", "us-east-1"⟩

/-- A provider whose every retrieve-and-generate call fails with a throttling
`ClientError` (not the invalid-session signature). -/
def roThrottle : Nat → RagResult :=
  fun _ => RagResult.clientError "ThrottlingException: Rate exceeded"

/-- Claim C4 counterexample: a `ClientError` that is not the invalid-session
signature (here a throttling error — a provider service error) is re-raised
by `call_bedrock` and propagates out of `chat` as a hard failure instead of
being recovered with a canned reply. -/
theorem claim_C4_counterexample :
    (App.chat cfgKB roThrottle SimpleResult.exn "fresh4"
        ⟨"how do i set up a controller", none, some "en"⟩).1
      = Except.error ChatError.providerError := by
  decide

/-- Claim C4 (amended): provider failures that are not `ClientError`s are
recovered with the canned echo reply, and failures of the direct-model call
are recovered with the canned greeting reply; but a `ClientError` whose
message does not match the invalid-session signature propagates to the
caller as an error. -/
theorem claim_C4_amended (cfg : Config) (ro : Nat → RagResult) (k : Nat)
    (fid message : String) (cid : Option String) (language : String)
    (fh : Bool) (mode : String) (so : SimpleResult) (m2 l2 mo2 : String) :
    (cfg.kbId ≠ "" → cfg.modelId ≠ "" → ro k = RagResult.exn →
      (App.call_bedrock cfg ro k fid message cid language fh mode).1
        = Except.ok { conversationId := some (pyOrOS cid fid),
                      reply := App.echoReply language message })
    ∧ (so = SimpleResult.exn →
        (App.call_model_simple cfg so m2 l2 mo2).1.reply = App.cannedSimple l2)
    ∧ (∀ msg, cfg.kbId ≠ "" → cfg.modelId ≠ "" →
        ro k = RagResult.clientError msg → App.invalidSessionSig msg = false →
        (App.call_bedrock cfg ro k fid message cid language fh mode).1
          = Except.error ()) := by
  refine ⟨?_, ?_, ?_⟩
  · intro hk hm hro
    unfold App.call_bedrock
    rw [if_neg (by intro hor; rcases hor with h | h; exacts [hk h, hm h])]
    simp only [hro]
  · intro hso
    subst hso
    unfold App.call_model_simple
    by_cases hm2 : pyOrS cfg.modelArnOverride cfg.modelId = "" <;> simp [hm2]
  · intro msg hk hm hro hsig
    unfold App.call_bedrock
    rw [if_neg (by intro hor; rcases hor with h | h; exacts [hk h, hm h])]
    simp only [hro, hsig]
    simp

/-- Witness for the amended C4 at concrete inputs. -/
theorem claim_C4_witness :
    (App.call_bedrock cfgKB roExn 0 "f4" "help me" none "en" false "default").1
      = Except.ok { conversationId := some "f4", reply := "You said: help me" }
    ∧ (App.call_model_simple cfgNone SimpleResult.exn "help me" "en" "general").1.reply
      = App.cannedSimple "en"
    ∧ (App.call_bedrock cfgKB roThrottle 0 "f4" "help me" none "en" false "default").1
      = Except.error () :=
  ⟨(claim_C4_amended cfgKB roExn 0 "f4" "help me" none "en" false "default"
      SimpleResult.exn "help me" "en" "general").1 (by decide) (by decide) rfl,
   (claim_C4_amended cfgNone roExn 0 "f4" "help me" none "en" false "default"
      SimpleResult.exn "help me" "en" "general").2.1 rfl,
   (claim_C4_amended cfgKB roThrottle 0 "f4" "help me" none "en" false "default"
      SimpleResult.exn "help me" "en" "general").2.2
      "ThrottlingException: Rate exceeded" (by decide) (by decide) rfl (by decide)⟩

/-- Claim C3 (confirmed): when a caller-supplied session token is rejected
with the invalid-session error signature, `call_bedrock` retries exactly once
with the token omitted, and when the retry succeeds the invalid-session
condition is not surfaced: the call returns a normal result. -/
theorem claim_C3 (cfg : Config) (ro : Nat → RagResult) (k : Nat)
    (fid message s language : String) (fh : Bool) (mode : String) (msg : String)
    (hk : cfg.kbId ≠ "") (hm : cfg.modelId ≠ "") (hs : s ≠ "")
    (he : ro k = RagResult.clientError msg)
    (hsig : App.invalidSessionSig msg = true) :
    (App.call_bedrock cfg ro k fid message (some s) language fh mode).2
      = [ProviderCall.rag (some s) (App.build_prompt message language fh mode),
         ProviderCall.rag none (App.build_prompt message language fh mode)]
    ∧ ∀ out sid, ro (k + 1) = RagResult.ok out sid →
        (App.call_bedrock cfg ro k fid message (some s) language fh mode).1
          = Except.ok { conversationId := some (pyOrOS sid (pyOrOS (some s) fid)),
                        reply := pyOrOS out (App.noAnswer language) } := by
  have hcond : ¬(cfg.kbId = "" ∨ cfg.modelId = "") := by
    intro hor; rcases hor with h | h; exacts [hk h, hm h]
  constructor
  · unfold App.call_bedrock
    rw [if_neg hcond]
    simp only [he, hsig]
    cases h2 : ro (k + 1) <;> simp [App.sessParam, hs]
  · intro out sid h2
    unfold App.call_bedrock
    rw [if_neg hcond]
    simp only [he, hsig, h2]
    simp

/-- A provider that rejects the supplied session once, then succeeds. -/
def roSessErr : Nat → RagResult := fun n =>
  if n = 0 then
    RagResult.clientError "ValidationException: Session with Id abc is not valid"
  else if n = 1 then
    RagResult.ok (some "Here are adaptive controller options.") (some "newsess")
  else RagResult.exn

/-- Witness for C3 at a concrete input. -/
theorem claim_C3_witness :
    (App.call_bedrock cfgKB roSessErr 0 "f3" "which controller" (some "abc")
        "en" false "default").2
      = [ProviderCall.rag (some "abc") (App.build_prompt "which controller" "en" false "default"),
         ProviderCall.rag none (App.build_prompt "which controller" "en" false "default")]
    ∧ (App.call_bedrock cfgKB roSessErr 0 "f3" "which controller" (some "abc")
        "en" false "default").1
      = Except.ok { conversationId := some "newsess",
                    reply := "Here are adaptive controller options." } := by
  have h := claim_C3 cfgKB roSessErr 0 "f3" "which controller" "abc" "en" false "default"
    "ValidationException: Session with Id abc is not valid"
    (by decide) (by decide) (by decide) rfl (by decide)
  exact ⟨h.1, h.2 (some "Here are adaptive controller options.") (some "newsess") rfl⟩

/-- Claim C9 counterexample: with no knowledge base configured and the
substantive message `"cannot help"`, the echo reply itself matches a refusal
pattern, so escalation fires and `chat` returns the general-fallback canned
reply with a null conversation id instead of the echo reply paired with a
token. -/
theorem claim_C9_counterexample :
    App.is_greeting "cannot help" = false
    ∧ cfgNone.kbId = ""
    ∧ (App.chat cfgNone roExn SimpleResult.exn "fresh9" ⟨"cannot help", none, some "en"⟩).1
      = Except.ok { conversationId := none, reply := "Hi! How can I help?" } := by
  decide

/-- Claim C9 (amended): for a substantive request with the knowledge-base or
model configuration absent, provided the echo reply does not itself match a
refusal pattern, `chat` returns the echo reply paired with the caller's token
(or a fresh one) and makes no provider call; when the echo reply matches a
refusal pattern the escalation ladder runs instead. -/
theorem claim_C9_amended (cfg : Config) (ro : Nat → RagResult) (so : SimpleResult)
    (fid : String) (req : ChatRequest)
    (hcfg : cfg.kbId = "" ∨ cfg.modelId = "")
    (hne : pyStrip req.message ≠ "")
    (hg : App.is_greeting (pyStrip req.message) = false)
    (hnr : App.looks_like_refusal
        (App.echoReply (normLanguage req.language) (pyStrip req.message)) = false) :
    App.chat cfg ro so fid req
      = (Except.ok { conversationId := some (pyOrOS req.conversationId fid),
                     reply := App.echoReply (normLanguage req.language) (pyStrip req.message) },
         []) := by
  have hcb : App.call_bedrock cfg ro 0 fid (pyStrip req.message) req.conversationId
      (normLanguage req.language) false "default"
      = (Except.ok { conversationId := some (pyOrOS req.conversationId fid),
                     reply := App.echoReply (normLanguage req.language) (pyStrip req.message) },
         []) := by
    unfold App.call_bedrock
    rw [if_pos hcfg]
  unfold App.chat
  dsimp only
  rw [if_neg hne]
  simp only [hg, Bool.false_eq_true, if_false, hcb, hnr]

/-- Witness for the amended C9 at a concrete input. -/
theorem claim_C9_witness :
    App.chat cfgNone roExn SimpleResult.exn "fresh9b"
        ⟨"what games exist", some "tok", some "en"⟩
      = (Except.ok { conversationId := some "tok", reply := "You said: what games exist" },
         []) :=
  claim_C9_amended cfgNone roExn SimpleResult.exn "fresh9b"
    ⟨"what games exist", some "tok", some "en"⟩
    (Or.inl rfl) (by decide) (by decide) (by decide)

lemma call_bedrock_trace_le (cfg : Config) (ro : Nat → RagResult) (k : Nat)
    (fid message : String) (cid : Option String) (language : String)
    (fh : Bool) (mode : String) :
    (App.call_bedrock cfg ro k fid message cid language fh mode).2.length ≤ 2 := by
  unfold App.call_bedrock
  split
  · simp
  · cases h : ro k <;> simp only [h]
    · simp
    · split
      · cases h2 : ro (k + 1) <;> simp
      · simp
    · simp

lemma call_model_simple_trace_le (cfg : Config) (so : SimpleResult)
    (message language mode : String) :
    (App.call_model_simple cfg so message language mode).2.length ≤ 1 := by
  unfold App.call_model_simple
  by_cases hm : pyOrS cfg.modelArnOverride cfg.modelId = ""
  · simp [hm]
  · cases so <;> simp [hm]

/-- The provider behaviour that drives four provider calls on one substantive
request: invalid session on the first call, refusal replies on the
invalid-session retry and on the escalated attempt. -/
def roC5 : Nat → RagResult := fun n =>
  if n = 0 then RagResult.clientError "Session with Id oldsess is not valid"
  else if n = 1 then RagResult.ok (some "I cannot help with that request.") (some "s1")
  else RagResult.ok (some "no puedo ayudar con eso") (some "s2")

/-- Claim C5 counterexample: a substantive request can trigger four provider
calls (invalid-session retry, escalated retrieve-and-generate, direct-model
fallback), exceeding the claimed bound of three. -/
theorem claim_C5_counterexample :
    App.is_greeting "set up an adaptive controller" = false
    ∧ ((App.chat cfgKB roC5 (SimpleResult.ok (some "Use a flex controller.")) "f5"
        ⟨"set up an adaptive controller", some "oldsess", some "en"⟩).2).length = 4 := by
  decide

/-- Claim C5 (amended): every `chat` request performs a bounded number of
provider calls before terminating — at most 5 for a substantive request (two
retrieve-and-generate attempts, each with at most one invalid-session retry,
plus at most one direct-model call) and at most 1 for a greeting request. -/
theorem claim_C5_amended (cfg : Config) (ro : Nat → RagResult) (so : SimpleResult)
    (fid : String) (req : ChatRequest) :
    (App.chat cfg ro so fid req).2.length ≤ 5
    ∧ (App.is_greeting (pyStrip req.message) = true →
        (App.chat cfg ro so fid req).2.length ≤ 1) := by
  have hb1 := call_bedrock_trace_le cfg ro 0 fid (pyStrip req.message)
    req.conversationId (normLanguage req.language) false "default"
  have hb2 := call_bedrock_trace_le cfg ro 2 fid (pyStrip req.message)
    none (normLanguage req.language) true "default"
  have hs1 := call_model_simple_trace_le cfg so (pyStrip req.message)
    (normLanguage req.language) "greeting"
  have hs2 := call_model_simple_trace_le cfg so (pyStrip req.message)
    (normLanguage req.language) "general"
  constructor
  · unfold App.chat
    dsimp only
    split
    · simp
    · split
      · simpa using le_trans hs1 (by omega)
      · split
        · simpa using le_trans hb1 (by omega)
        · split
          · split
            · simp only [List.length_append]
              omega
            · split
              · simp only [List.length_append]
                omega
              · simp only [List.length_append]
                omega
          · simpa using le_trans hb1 (by omega)
  · intro hg
    unfold App.chat
    dsimp only
    split
    · simp
    · simpa using hs1


/-- Claim C2 (confirmed): when the first retrieve-and-generate reply of a
substantive request looks like a refusal, `chat` performs a second
retrieve-and-generate call with the session token deliberately dropped and
the escalated (force-help) prompt; if that second reply also looks like a
refusal, it performs exactly one direct-model general-fallback call and
returns its result with no further refusal check. -/
theorem claim_C2 (cfg : Config) (ro : Nat → RagResult) (so : SimpleResult)
    (fid : String) (req : ChatRequest) (r1 r2 : ChatResult)
    (hk : cfg.kbId ≠ "") (hmo : cfg.modelId ≠ "")
    (hne : pyStrip req.message ≠ "")
    (hg : App.is_greeting (pyStrip req.message) = false)
    (h1 : (App.call_bedrock cfg ro 0 fid (pyStrip req.message) req.conversationId
        (normLanguage req.language) false "default").1 = Except.ok r1)
    (hr1 : App.looks_like_refusal r1.reply = true)
    (h2 : (App.call_bedrock cfg ro 2 fid (pyStrip req.message) none
        (normLanguage req.language) true "default").1 = Except.ok r2) :
    ((App.call_bedrock cfg ro 2 fid (pyStrip req.message) none
        (normLanguage req.language) true "default").2).head?
      = some (ProviderCall.rag none
          (App.build_prompt (pyStrip req.message) (normLanguage req.language) true "default"))
    ∧ (App.looks_like_refusal r2.reply = true →
        App.chat cfg ro so fid req
          = (Except.ok (App.call_model_simple cfg so (pyStrip req.message)
                (normLanguage req.language) "general").1,
             (App.call_bedrock cfg ro 0 fid (pyStrip req.message) req.conversationId
                (normLanguage req.language) false "default").2
               ++ (App.call_bedrock cfg ro 2 fid (pyStrip req.message) none
                    (normLanguage req.language) true "default").2
               ++ (App.call_model_simple cfg so (pyStrip req.message)
                    (normLanguage req.language) "general").2))
    ∧ (App.looks_like_refusal r2.reply = false →
        App.chat cfg ro so fid req
          = (Except.ok r2,
             (App.call_bedrock cfg ro 0 fid (pyStrip req.message) req.conversationId
                (normLanguage req.language) false "default").2
               ++ (App.call_bedrock cfg ro 2 fid (pyStrip req.message) none
                    (normLanguage req.language) true "default").2))
    ∧ (pyOrS cfg.modelArnOverride cfg.modelId ≠ "" →
        (App.call_model_simple cfg so (pyStrip req.message)
          (normLanguage req.language) "general").2
          = [ProviderCall.invoke (App.build_general_fallback_prompt (pyStrip req.message)
              (normLanguage req.language))]) := by
  have hcond : ¬(cfg.kbId = "" ∨ cfg.modelId = "") := by
    intro hor; rcases hor with h | h; exacts [hk h, hmo h]
  refine ⟨?_, ?_, ?_, ?_⟩
  · unfold App.call_bedrock
    rw [if_neg hcond]
    cases h : ro 2 <;> simp only [h]
    · simp [App.sessParam]
    · split
      · cases h3 : ro (2 + 1) <;> simp [App.sessParam]
      · simp [App.sessParam]
    · simp [App.sessParam]
  · intro hr2
    unfold App.chat
    dsimp only
    rw [if_neg hne]
    simp only [hg, Bool.false_eq_true, if_false, h1, hr1, h2, hr2]
    simp
  · intro hr2
    unfold App.chat
    dsimp only
    rw [if_neg hne]
    simp only [hg, Bool.false_eq_true, if_false, h1, hr1, h2, hr2]
    simp
  · intro hm2
    unfold App.call_model_simple
    rw [if_neg hm2]
    cases so <;> simp

/-- The provider behaviour whose first and escalated replies both match a
refusal pattern. -/
def roC2 : Nat → RagResult := fun n =>
  if n = 0 then RagResult.ok (some "Sorry, I am unable to help with that.") (some "s1")
  else RagResult.ok (some "no puedo ayudar con eso") (some "s2")

/-- Witness for C2 at a concrete input. -/
theorem claim_C2_witness :
    App.chat cfgKB roC2 (SimpleResult.ok (some "Try remapping buttons.")) "f2"
        ⟨"help me set up", none, some "en"⟩
      = (Except.ok (App.call_model_simple cfgKB (SimpleResult.ok (some "Try remapping buttons."))
            "help me set up" "en" "general").1,
         (App.call_bedrock cfgKB roC2 0 "f2" "help me set up" none "en" false "default").2
           ++ (App.call_bedrock cfgKB roC2 2 "f2" "help me set up" none "en" true "default").2
           ++ (App.call_model_simple cfgKB (SimpleResult.ok (some "Try remapping buttons."))
                "help me set up" "en" "general").2) := by
  have h := claim_C2 cfgKB roC2 (SimpleResult.ok (some "Try remapping buttons.")) "f2"
    ⟨"help me set up", none, some "en"⟩
    ⟨some "s1", "Sorry, I am unable to help with that."⟩
    ⟨some "s2", "no puedo ayudar con eso"⟩
    (by decide) (by decide) (by decide) (by decide) rfl (by decide) rfl
  exact h.2.1 (by decide)

/-- Payload of a delta event, if any. -/
def deltaText : SseEvent → Option String
  | SseEvent.delta t => some t
  | _ => none

/-- The delta payloads of an event stream, in order. -/
def deltaTexts (evs : List SseEvent) : List String := evs.filterMap deltaText

/-- Drop trailing space characters of a character list. -/
def dropTrailSp (l : List Char) : List Char :=
  (l.reverse.dropWhile fun c => c == ' ').reverse

/-- Strip the trailing spaces of a string. -/
def stripTrailingSpaces (s : String) : String := String.mk (dropTrailSp s.data)

/-- Concatenation of a stream's delta payloads with the artificial trailing
spaces stripped: the spec's notion of reconstructing the reply. -/
def sseReconstruct (evs : List SseEvent) : String :=
  stripTrailingSpaces (String.join (deltaTexts evs))

/-- Join character-list words with single spaces. -/
def joinSp : List (List Char) → List Char
  | [] => []
  | [w] => w
  | w :: ws => w ++ ' ' :: joinSp ws

/-- The whitespace-normal form of a string: its `str.split()` words joined by
single spaces. -/
def whitespaceNormalized (s : String) : String := String.mk (joinSp (splitWs s.data))

lemma string_data_append (a b : String) : (a ++ b).data = a.data ++ b.data := by
  cases a
  cases b
  rfl

lemma splitWsAux_words (cs : List Char) : ∀ acc, (∀ c ∈ acc, isPySpace c = false) →
    ∀ w ∈ splitWsAux cs acc, w ≠ [] ∧ ∀ c ∈ w, isPySpace c = false := by
  induction cs with
  | nil =>
    intro acc hacc w hw
    unfold splitWsAux at hw
    split at hw
    · exact absurd hw (List.not_mem_nil w)
    · rename_i hne
      rw [List.mem_singleton] at hw
      subst hw
      refine ⟨by simpa using hne, fun c hc => hacc c (List.mem_reverse.mp hc)⟩
  | cons c cs ih =>
    intro acc hacc w hw
    unfold splitWsAux at hw
    split at hw
    · split at hw
      · exact ih [] (by simp) w hw
      · rename_i hne
        rcases List.mem_cons.mp hw with h | h
        · subst h
          refine ⟨by simpa using hne, fun c2 hc2 => hacc c2 (List.mem_reverse.mp hc2)⟩
        · exact ih [] (by simp) w h
    · rename_i hsp
      refine ih (c :: acc) ?_ w hw
      intro c2 hc2
      rcases List.mem_cons.mp hc2 with h | h
      · subst h
        simpa using hsp
      · exact hacc c2 h

lemma splitWs_words (cs : List Char) :
    ∀ w ∈ splitWs cs, w ≠ [] ∧ ∀ c ∈ w, isPySpace c = false :=
  splitWsAux_words cs [] (by simp)

lemma dropWhile_append_of_ne_nil (p : Char → Bool) (x y : List Char)
    (h : x.dropWhile p ≠ []) : (x ++ y).dropWhile p = x.dropWhile p ++ y := by
  induction x with
  | nil => simp at h
  | cons c x ih =>
    by_cases hp : p c = true
    · rw [List.cons_append, List.dropWhile_cons_of_pos hp, List.dropWhile_cons_of_pos hp]
      rw [List.dropWhile_cons_of_pos hp] at h
      exact ih h
    · rw [List.cons_append, List.dropWhile_cons_of_neg hp, List.dropWhile_cons_of_neg hp]
      rfl

lemma dropTrailSp_append (a b : List Char) (h : dropTrailSp b ≠ []) :
    dropTrailSp (a ++ b) = a ++ dropTrailSp b := by
  unfold dropTrailSp at h ⊢
  have hb : b.reverse.dropWhile (fun c => c == ' ') ≠ [] := by
    intro h0
    apply h
    rw [h0]
    rfl
  rw [List.reverse_append, dropWhile_append_of_ne_nil _ _ _ hb, List.reverse_append,
    List.reverse_reverse]

lemma dropWhile_eq_self_of_all (p : Char → Bool) (l : List Char)
    (h : ∀ c ∈ l, p c = false) : l.dropWhile p = l := by
  cases l with
  | nil => rfl
  | cons c t =>
    have hc := h c (List.mem_cons_self c t)
    rw [List.dropWhile_cons_of_neg (by simp [hc])]

lemma not_space_of_not_pySpace (c : Char) (h : isPySpace c = false) : (c == ' ') = false := by
  unfold isPySpace at h
  cases hc : (c == ' ')
  · rfl
  · rw [hc] at h
    simp at h

lemma dropTrailSp_word_space (w : List Char) (hns : ∀ c ∈ w, isPySpace c = false) :
    dropTrailSp (w ++ [' ']) = w := by
  unfold dropTrailSp
  rw [List.reverse_append]
  have h1 : ([' '] : List Char).reverse = [' '] := rfl
  rw [h1, List.singleton_append, List.dropWhile_cons_of_pos (by rfl),
    dropWhile_eq_self_of_all _ _
      (fun c hc => not_space_of_not_pySpace c (hns c (List.mem_reverse.mp hc))),
    List.reverse_reverse]

lemma joinSp_ne_nil (w : List Char) (ws : List (List Char)) (hw : w ≠ []) :
    joinSp (w :: ws) ≠ [] := by
  cases ws with
  | nil => simpa [joinSp] using hw
  | cons w2 ws2 => simp [joinSp]

lemma dropTrailSp_joinWords (ws : List (List Char))
    (h : ∀ w ∈ ws, w ≠ [] ∧ ∀ c ∈ w, isPySpace c = false) :
    dropTrailSp ((ws.map (fun w => w ++ [' '])).flatten) = joinSp ws := by
  induction ws with
  | nil => rfl
  | cons w ws ih =>
    have hw := h w (List.mem_cons_self w ws)
    have hws : ∀ v ∈ ws, v ≠ [] ∧ ∀ c ∈ v, isPySpace c = false :=
      fun v hv => h v (List.mem_cons_of_mem w hv)
    cases ws with
    | nil =>
      simp only [List.map_cons, List.map_nil, List.flatten_cons, List.flatten_nil, List.append_nil]
      exact dropTrailSp_word_space w hw.2
    | cons w2 ws2 =>
      have hne : joinSp (w2 :: ws2) ≠ [] :=
        joinSp_ne_nil w2 ws2 (hws w2 (List.mem_cons_self w2 ws2)).1
      have hrest := ih hws
      simp only [List.map_cons, List.flatten_cons] at hrest ⊢
      rw [dropTrailSp_append _ _ (by rw [hrest]; exact hne), hrest]
      simp [joinSp, List.append_assoc]

lemma join_data (l : List String) : (String.join l).data = (l.map String.data).flatten := by
  have h : ∀ (acc : String), (l.foldl (fun r s => r ++ s) acc).data
      = acc.data ++ (l.map String.data).flatten := by
    induction l with
    | nil => intro acc; simp
    | cons s t ih =>
      intro acc
      simp only [List.foldl_cons, List.map_cons, List.flatten_cons]
      rw [ih, string_data_append, List.append_assoc]
  simpa [String.join] using h ""

lemma filterMap_delta (ws : List String) :
    List.filterMap deltaText (ws.map (fun w => SseEvent.delta (w ++ " ")))
      = ws.map (fun w => w ++ " ") := by
  induction ws with
  | nil => rfl
  | cons w t ih => simp [List.filterMap_cons, deltaText, ih]

lemma deltaTexts_stream_reply (reply : String) (cid : Option String) :
    deltaTexts (App.stream_reply reply cid) = (pySplit reply).map (fun w => w ++ " ") := by
  unfold App.stream_reply deltaTexts
  rw [List.filterMap_append, List.filterMap_append, filterMap_delta]
  simp [List.filterMap_cons, deltaText]

lemma sseReconstruct_stream_reply (reply : String) (cid : Option String) :
    sseReconstruct (App.stream_reply reply cid) = whitespaceNormalized reply := by
  unfold sseReconstruct whitespaceNormalized stripTrailingSpaces
  rw [deltaTexts_stream_reply]
  congr 1
  rw [join_data]
  have hmap : ((pySplit reply).map (fun w => w ++ " ")).map String.data
      = (splitWs reply.data).map (fun w => w ++ [' ']) := by
    unfold pySplit
    simp only [List.map_map]
    exact List.map_congr_left fun w _ => rfl
  rw [hmap]
  exact dropTrailSp_joinWords _ (splitWs_words reply.data)

/-- Claim C8 counterexample: for the reply `"a  b"` (two spaces) the
concatenated delta payloads, stripped of the artificial trailing spaces, give
`"a b"`, not the original reply — word-splitting loses the original
whitespace. -/
theorem claim_C8_counterexample :
    sseReconstruct (App.stream_reply "a  b" none) = "a b"
    ∧ sseReconstruct (App.stream_reply "a  b" none) ≠ "a  b" := by
  decide

/-- Claim C8 (amended): the stream is exactly one meta event carrying the
conversation id, one delta per whitespace-delimited word (payload the word
plus a trailing space), and a final completion event; concatenating the delta
payloads and stripping the artificial trailing spaces yields the
whitespace-normal form of the reply (its words joined by single spaces),
which equals the original reply exactly when the reply is already
whitespace-normal. -/
theorem claim_C8_amended (reply : String) (cid : Option String) :
    App.stream_reply reply cid
      = SseEvent.meta cid
          :: ((pySplit reply).map fun w => SseEvent.delta (w ++ " ")) ++ [SseEvent.done]
    ∧ sseReconstruct (App.stream_reply reply cid) = whitespaceNormalized reply
    ∧ (sseReconstruct (App.stream_reply reply cid) = reply
        ↔ whitespaceNormalized reply = reply) := by
  refine ⟨by simp [App.stream_reply], sseReconstruct_stream_reply reply cid, ?_⟩
  rw [sseReconstruct_stream_reply reply cid]

/-- Witness for the amended C5 at a concrete input. -/
theorem claim_C5_witness :
    (App.chat cfgNone roExn SimpleResult.exn "f5w" ⟨"hi", none, some "en"⟩).2.length ≤ 5
    ∧ (App.chat cfgNone roExn SimpleResult.exn "f5w" ⟨"hi", none, some "en"⟩).2.length ≤ 1 :=
  ⟨(claim_C5_amended cfgNone roExn SimpleResult.exn "f5w" ⟨"hi", none, some "en"⟩).1,
   (claim_C5_amended cfgNone roExn SimpleResult.exn "f5w" ⟨"hi", none, some "en"⟩).2
     (by decide)⟩

example :
    (App.chat ⟨"", "", "", "us-east-1"⟩ (fun _ => RagResult.exn) SimpleResult.exn
      "fresh" ⟨"hi", none, some "en"⟩).1
      = Except.ok { conversationId := none, reply := "Hi! How can I help?" } := by decide

example :
    (App.chat ⟨"", "", "", "us-east-1"⟩ (fun _ => RagResult.exn) SimpleResult.exn
      "fresh" ⟨"what games", some "abc", some "en"⟩).1
      = Except.ok { conversationId := some "abc", reply := "You said: what games" } := by
  decide

end RespawnChatbot
